import Mathlib

set_option autoImplicit false

/-!
Shallow embedding of the MCP-style agent pipeline from
`backend/app/services/mcp_style_agent.py`: the tool registry
(search, calculator, text analyzer, financial data, commodity price),
the Planner, Tool Selector, Executor, Validator fallback and the
top-level agent entry point.  External effects (the LLM completion
call, HTTP requests, the market-data provider, wall-clock time) are
modelled as explicit oracle parameters; everything else is translated
directly from the Python source.

Numbers are modelled as exact fractions (`PyNum`); string primitives
are implemented structurally over `List Char` so that every definition
evaluates inside the kernel.
-/

/-- An exact fraction `num / den` (`den` is kept positive by every
operation below).  Python ints appear as `⟨n, 1⟩`; Python floats are
modelled exactly, with explicit IEEE-754 rounding applied where a claim
depends on it. -/
structure PyNum where
  num : ℤ
  den : ℕ
deriving DecidableEq

/-- Fraction addition (no normalisation). -/
def pAdd : PyNum → PyNum → PyNum
  | ⟨a, b⟩, ⟨c, d⟩ => ⟨a * d + c * b, b * d⟩

/-- Fraction subtraction. -/
def pSub : PyNum → PyNum → PyNum
  | ⟨a, b⟩, ⟨c, d⟩ => ⟨a * d - c * b, b * d⟩

/-- Fraction multiplication. -/
def pMul : PyNum → PyNum → PyNum
  | ⟨a, b⟩, ⟨c, d⟩ => ⟨a * c, b * d⟩

/-- Fraction negation. -/
def pNeg : PyNum → PyNum
  | ⟨a, b⟩ => ⟨-a, b⟩

/-- Fraction division; callers check the divisor is non-zero first
(Python raises `ZeroDivisionError` otherwise). -/
def pDiv : PyNum → PyNum → PyNum
  | ⟨a, b⟩, ⟨c, d⟩ =>
      if 0 ≤ c then ⟨a * d, b * c.toNat⟩ else ⟨-(a * d), b * (-c).toNat⟩

/-- Whether the fraction is zero. -/
def pIsZero (x : PyNum) : Bool := x.num = 0

/-- Strict comparison by cross-multiplication (denominators positive). -/
def pLt (x y : PyNum) : Bool := x.num * y.den < y.num * x.den

/-- Non-strict comparison by cross-multiplication. -/
def pLe (x y : PyNum) : Bool := x.num * y.den ≤ y.num * x.den

/-- Mathematical floor of the fraction. -/
def pFloor (x : PyNum) : ℤ := Int.fdiv x.num x.den

/-- The rational value of a fraction (used to state claims; the code
model itself computes on `PyNum`). -/
def PyNum.toQ (x : PyNum) : ℚ := (x.num : ℚ) / (x.den : ℚ)

/-- Render like Python `str` of an int when the denominator is 1;
fraction rendering otherwise (a stand-in for Python float formatting —
no claim depends on that case). -/
def pNumStr (x : PyNum) : String :=
  if x.den = 1 then toString x.num else toString x.num ++ "/" ++ toString x.den

/-- Python values as they appear in the tool result dictionaries:
strings, numbers, booleans, `None`, lists and insertion-ordered
dicts. -/
inductive JVal where
  | str (s : String)
  | num (n : PyNum)
  | bool (b : Bool)
  | null
  | list (xs : List JVal)
  | dict (kvs : List (String × JVal))

/-- Dictionary key lookup (`d[k]` / `d.get(k)`); `none` on non-dicts. -/
def lookupKey (v : JVal) (k : String) : Option JVal :=
  match v with
  | JVal.dict kvs => kvs.lookup k
  | _ => none

/-- `k in d` for a Python dict. -/
def hasKey (v : JVal) (k : String) : Bool :=
  (lookupKey v k).isSome

/-- `d[k] = val` on a Python dict: overwrite in place if the key exists,
append otherwise (Python dicts preserve insertion order). -/
def jdictSet (v : JVal) (k : String) (val : JVal) : JVal :=
  match v with
  | JVal.dict kvs =>
      JVal.dict
        (if (kvs.lookup k).isSome then
          kvs.map (fun p => if p.1 = k then (k, val) else p)
        else kvs ++ [(k, val)])
  | other => other

/-- Boolean prefix test on character lists. -/
def listPrefix : List Char → List Char → Bool
  | [], _ => true
  | _ :: _, [] => false
  | a :: as, b :: bs => a = b && listPrefix as bs

/-- Boolean infix test on character lists. -/
def listInfix (pat : List Char) : List Char → Bool
  | [] => listPrefix pat []
  | c :: rest => listPrefix pat (c :: rest) || listInfix pat rest

/-- `pat in hay` for Python strings (substring containment). -/
def strContains (hay pat : String) : Bool :=
  listInfix pat.data hay.data

/-- Python `str.lower` (ASCII case folding). -/
def lowerStr (s : String) : String := ⟨s.data.map Char.toLower⟩

/-- Python `str.upper` (ASCII case folding). -/
def upperStr (s : String) : String := ⟨s.data.map Char.toUpper⟩

/-- Python `str.strip()`: remove leading and trailing whitespace. -/
def trimStr (s : String) : String :=
  ⟨((s.data.dropWhile Char.isWhitespace).reverse.dropWhile Char.isWhitespace).reverse⟩

/-- Split a character list at characters satisfying `p`, discarding
empty pieces (the behaviour of Python `str.split()` with no argument,
and of `re.split` on a character-class-plus once empties are
filtered). -/
def splitDrop (p : Char → Bool) : List Char → List Char → List String
  | [], cur => if cur = [] then [] else [⟨cur.reverse⟩]
  | c :: cs, cur =>
      if p c then
        (if cur = [] then splitDrop p cs [] else (⟨cur.reverse⟩ : String) :: splitDrop p cs [])
      else splitDrop p cs (c :: cur)

/-- Python `text.split()`. -/
def pySplit (s : String) : List String := splitDrop Char.isWhitespace s.data []

/-- Left-to-right, non-overlapping replacement of `pat` (non-empty) in a
character list, with fuel. -/
def replaceAux (pat rep : List Char) : ℕ → List Char → List Char
  | 0, l => l
  | _ + 1, [] => []
  | f + 1, c :: cs =>
      if listPrefix pat (c :: cs) then rep ++ replaceAux pat rep f ((c :: cs).drop pat.length)
      else c :: replaceAux pat rep f cs

/-- Python `str.replace(pat, rep)` for a non-empty pattern. -/
def strReplace (s pat rep : String) : String :=
  if pat.data = [] then s else ⟨replaceAux pat.data rep.data s.data.length s.data⟩

/-- A single-quote character, used by Python `repr` of strings. -/
def sQuote : String := String.singleton (Char.ofNat 39)

mutual
/-- Python `repr` of a value (strings quoted, dicts in braces). -/
def pyRepr : JVal → String
  | JVal.str s => sQuote ++ s ++ sQuote
  | JVal.num q => pNumStr q
  | JVal.bool b => cond b "True" "False"
  | JVal.null => "None"
  | JVal.list xs => "[" ++ pyReprList xs ++ "]"
  | JVal.dict kvs => "\x7b" ++ pyReprDict kvs ++ "\x7d"

def pyReprList : List JVal → String
  | [] => ""
  | [x] => pyRepr x
  | x :: y :: xs => pyRepr x ++ ", " ++ pyReprList (y :: xs)

def pyReprDict : List (String × JVal) → String
  | [] => ""
  | [(k, v)] => sQuote ++ k ++ sQuote ++ ": " ++ pyRepr v
  | (k, v) :: p :: xs => sQuote ++ k ++ sQuote ++ ": " ++ pyRepr v ++ ", " ++ pyReprDict (p :: xs)
end

/-- Python `str` of a value: strings unquoted, everything else `repr`. -/
def pyStr : JVal → String
  | JVal.str s => s
  | v => pyRepr v

/-- Python `str` applied to an `ExecutionResult.output` slot, where the
absent value is `None`. -/
def pyStrOpt : Option JVal → String
  | none => "None"
  | some v => pyStr v

/-- The `ToolType` enum of the agent. -/
inductive ToolType where
  | SEARCH
  | CALCULATOR
  | TEXT_ANALYZER
  | FINANCIAL_DATA
  | COMMODITY_PRICE
  | NONE
deriving DecidableEq

/-- The `PlanStep` dataclass. -/
structure PlanStep where
  step_number : ℤ
  description : String
  required_tool : ToolType
  dependencies : List ℤ
  tool_input : String
deriving DecidableEq

/-- The `ExecutionResult` dataclass. -/
structure ExecutionResult where
  step_number : ℤ
  success : Bool
  output : Option JVal
  error : Option String

/-- The executor's ledger `Dict[int, ExecutionResult]`, modelled as an
insertion-ordered association list. -/
abbrev Ledger := List (ℤ × ExecutionResult)

/-- `results[k] = v` on the ledger dict: overwrite in place when the key
exists, append otherwise. -/
def ledgerInsert (k : ℤ) (v : ExecutionResult) (d : Ledger) : Ledger :=
  if (d.lookup k).isSome then
    d.map (fun p => if p.1 = k then (k, v) else p)
  else d ++ [(k, v)]

/-- A tool implementation map: what `ToolSelector.available_tools` binds
each non-`NONE` tool type to.  A tool callable may in general raise
(`Except.error`), which the executor catches. -/
abbrev ToolImpl := ToolType → String → Except String JVal

/-- `ToolSelector.select_tool`: `None` for `ToolType.NONE`, otherwise the
registry entry (every non-`NONE` tool type is registered in the source's
`available_tools` dict). -/
def select_tool (tools : ToolImpl) (step : PlanStep) : Option (String → Except String JVal) :=
  if step.required_tool = ToolType.NONE then none else some (tools step.required_tool)

/-- One iteration of `validate_tool_input`'s dependency loop: if the
dependency has a successful prior result and the placeholder
`"step <n>"` occurs in the lowercased current input, the whole input is
replaced by `str(result.output)`. -/
def vtiStep (previous_results : Ledger) (input_str : String) (dep_step : ℤ) : String :=
  match previous_results.lookup dep_step with
  | some result =>
      if result.success then
        if strContains (lowerStr input_str) ("step " ++ toString dep_step) then
          pyStrOpt result.output
        else input_str
      else input_str
  | none => input_str

/-- `ToolSelector.validate_tool_input`: fold the dependency loop over
the step's declared dependencies, starting from `step.tool_input`. -/
def validate_tool_input (step : PlanStep) (previous_results : Ledger) : String :=
  step.dependencies.foldl (vtiStep previous_results) step.tool_input

/-- Whether a declared dependency is absent from the ledger or recorded
as failed (the condition the executor raises on). -/
def depFailed (results : Ledger) (d : ℤ) : Bool :=
  match results.lookup d with
  | none => true
  | some r => !r.success

/-- The first dependency in declaration order that is absent or failed:
the one the executor's `ValueError` names. -/
def firstFailedDep (results : Ledger) : List ℤ → Option ℤ
  | [] => none
  | d :: ds => if depFailed results d then some d else firstFailedDep results ds

/-- The error message raised for a missing/failed dependency. -/
def depErrorMsg (d : ℤ) : String :=
  "Dependency step " ++ toString d ++ " failed or not completed"

/-- The body of the executor's `try` block for one step: dependency
check, tool selection, input preparation, execution.  `Except.error` is
an exception escaping the block. -/
def execStepBody (tools : ToolImpl) (results : Ledger) (step : PlanStep) :
    Except String ExecutionResult :=
  match firstFailedDep results step.dependencies with
  | some d => Except.error (depErrorMsg d)
  | none =>
      let tool_func := select_tool tools step
      let tool_input := validate_tool_input step results
      match tool_func with
      | none =>
          Except.ok
            { step_number := step.step_number
              success := true
              output := some (JVal.dict
                [("message", JVal.str "No tool execution needed"),
                 ("input", JVal.str tool_input)])
              error := none }
      | some f =>
          match f tool_input with
          | Except.ok output =>
              Except.ok
                { step_number := step.step_number
                  success := true
                  output := some output
                  error := none }
          | Except.error e => Except.error e

/-- One iteration of the executor loop: the `try` body with its
`except` handler, which converts any exception into a failed
`ExecutionResult`. -/
def execStep (tools : ToolImpl) (results : Ledger) (step : PlanStep) : ExecutionResult :=
  match execStepBody tools results step with
  | Except.ok r => r
  | Except.error e =>
      { step_number := step.step_number
        success := false
        output := none
        error := some e }

/-- The executor loop over the remaining steps, threading the ledger. -/
def execute_plan_aux (tools : ToolImpl) : List PlanStep → Ledger → Ledger
  | [], results => results
  | step :: rest, results =>
      execute_plan_aux tools rest
        (ledgerInsert step.step_number (execStep tools results step) results)

/-- `Executor.execute_plan`: run every step in plan order, starting from
the empty ledger.  Total by construction — the Lean image of "never
raises". -/
def execute_plan (tools : ToolImpl) (plan : List PlanStep) : Ledger :=
  execute_plan_aux tools plan []

/-! ## Tool implementations -/

/-- Tokens of the arithmetic sublanguage that reaches Python `eval`
after the calculator's sanitisation (digits, `+ - * / ( ) .`, space,
hence also the two-character operators `**` and `//`). -/
inductive Tok where
  | num (q : PyNum)
  | plus
  | minus
  | star
  | slash
  | dslash
  | dstar
  | lpar
  | rpar
deriving DecidableEq

/-- Decimal digits to a natural number. -/
def digitsToNat (ds : List Char) : ℕ :=
  ds.foldl (fun n c => n * 10 + (c.toNat - 48)) 0

/-- Python `SyntaxError` message as `str(e)` renders it. -/
def synErr : String := "invalid syntax (<string>, line 1)"

/-- Python `ZeroDivisionError` message. -/
def divZeroErr : String := "division by zero"

/-- Tokenizer for the sanitised arithmetic strings (fuel-indexed;
`none` models a `SyntaxError` while tokenizing). -/
def tokenizeAux : ℕ → List Char → List Tok → Option (List Tok)
  | 0, _, _ => none
  | _ + 1, [], acc => some acc.reverse
  | f + 1, c :: cs, acc =>
      if c = ' ' then tokenizeAux f cs acc
      else if c = '+' then tokenizeAux f cs (Tok.plus :: acc)
      else if c = '-' then tokenizeAux f cs (Tok.minus :: acc)
      else if c = '*' then
        (match cs with
         | c2 :: cs2 =>
             if c2 = '*' then tokenizeAux f cs2 (Tok.dstar :: acc)
             else tokenizeAux f cs (Tok.star :: acc)
         | [] => tokenizeAux f cs (Tok.star :: acc))
      else if c = '/' then
        (match cs with
         | c2 :: cs2 =>
             if c2 = '/' then tokenizeAux f cs2 (Tok.dslash :: acc)
             else tokenizeAux f cs (Tok.slash :: acc)
         | [] => tokenizeAux f cs (Tok.slash :: acc))
      else if c = '(' then tokenizeAux f cs (Tok.lpar :: acc)
      else if c = ')' then tokenizeAux f cs (Tok.rpar :: acc)
      else if c.isDigit || c = '.' then
        (let intPart := (c :: cs).takeWhile Char.isDigit
         let rest1 := (c :: cs).dropWhile Char.isDigit
         match rest1 with
         | '.' :: rest2 =>
             let fracPart := rest2.takeWhile Char.isDigit
             if intPart = [] && fracPart = [] then none
             else
               tokenizeAux f (rest2.dropWhile Char.isDigit)
                 (Tok.num ⟨((digitsToNat intPart * 10 ^ fracPart.length + digitsToNat fracPart : ℕ) : ℤ),
                           10 ^ fracPart.length⟩ :: acc)
         | _ => tokenizeAux f rest1 (Tok.num ⟨((digitsToNat intPart : ℕ) : ℤ), 1⟩ :: acc))
      else none

/-- Python `//` on fractions: the floor of the true quotient. -/
def pFloorDiv (x y : PyNum) : PyNum :=
  ⟨Int.fdiv (x.num * y.den) (y.num * x.den), 1⟩

/-- Python `**` restricted to integer exponents (a fractional exponent
cannot be produced by any claim's input and is modelled as an error). -/
def pyPow (a b : PyNum) : Except String PyNum :=
  if b.num % (b.den : ℤ) = 0 then
    let e : ℤ := b.num / (b.den : ℤ)
    if 0 ≤ e then Except.ok ⟨a.num ^ e.toNat, (a.den ^ e.toNat : ℕ)⟩
    else if pIsZero a then Except.error "0.0 cannot be raised to a negative power"
    else Except.ok (pDiv ⟨1, 1⟩ ⟨a.num ^ (-e).toNat, (a.den ^ (-e).toNat : ℕ)⟩)
  else Except.error "fractional exponent not modelled"

mutual
/-- `expr := term (('+'|'-') term)*` — Python addition level. -/
def parseExpr : ℕ → List Tok → Except String (PyNum × List Tok)
  | 0, _ => Except.error synErr
  | f + 1, ts =>
      match parseTerm f ts with
      | Except.error e => Except.error e
      | Except.ok (v, ts1) => parseExprRest f v ts1

def parseExprRest : ℕ → PyNum → List Tok → Except String (PyNum × List Tok)
  | 0, _, _ => Except.error synErr
  | f + 1, v, Tok.plus :: ts =>
      (match parseTerm f ts with
       | Except.error e => Except.error e
       | Except.ok (w, ts1) => parseExprRest f (pAdd v w) ts1)
  | f + 1, v, Tok.minus :: ts =>
      (match parseTerm f ts with
       | Except.error e => Except.error e
       | Except.ok (w, ts1) => parseExprRest f (pSub v w) ts1)
  | _ + 1, v, ts => Except.ok (v, ts)

/-- `term := unary (('*'|'/'|'//') unary)*` — multiplication level. -/
def parseTerm : ℕ → List Tok → Except String (PyNum × List Tok)
  | 0, _ => Except.error synErr
  | f + 1, ts =>
      match parseUnary f ts with
      | Except.error e => Except.error e
      | Except.ok (v, ts1) => parseTermRest f v ts1

def parseTermRest : ℕ → PyNum → List Tok → Except String (PyNum × List Tok)
  | 0, _, _ => Except.error synErr
  | f + 1, v, Tok.star :: ts =>
      (match parseUnary f ts with
       | Except.error e => Except.error e
       | Except.ok (w, ts1) => parseTermRest f (pMul v w) ts1)
  | f + 1, v, Tok.slash :: ts =>
      (match parseUnary f ts with
       | Except.error e => Except.error e
       | Except.ok (w, ts1) =>
           if pIsZero w then Except.error divZeroErr
           else parseTermRest f (pDiv v w) ts1)
  | f + 1, v, Tok.dslash :: ts =>
      (match parseUnary f ts with
       | Except.error e => Except.error e
       | Except.ok (w, ts1) =>
           if pIsZero w then Except.error "integer division or modulo by zero"
           else parseTermRest f (pFloorDiv v w) ts1)
  | _ + 1, v, ts => Except.ok (v, ts)

/-- `unary := ('+'|'-') unary | power` — Python unary level. -/
def parseUnary : ℕ → List Tok → Except String (PyNum × List Tok)
  | 0, _ => Except.error synErr
  | f + 1, Tok.plus :: ts => parseUnary f ts
  | f + 1, Tok.minus :: ts =>
      (match parseUnary f ts with
       | Except.error e => Except.error e
       | Except.ok (v, ts1) => Except.ok (pNeg v, ts1))
  | f + 1, ts => parsePow f ts

/-- `power := atom ('**' unary)?` — right side of `**` is a unary
expression, as in Python's grammar. -/
def parsePow : ℕ → List Tok → Except String (PyNum × List Tok)
  | 0, _ => Except.error synErr
  | f + 1, ts =>
      match parseAtom f ts with
      | Except.error e => Except.error e
      | Except.ok (a, ts1) =>
          match ts1 with
          | Tok.dstar :: ts2 =>
              (match parseUnary f ts2 with
               | Except.error e => Except.error e
               | Except.ok (b, ts3) =>
                   match pyPow a b with
                   | Except.error e => Except.error e
                   | Except.ok r => Except.ok (r, ts3))
          | _ => Except.ok (a, ts1)

/-- `atom := number | '(' expr ')'`. -/
def parseAtom : ℕ → List Tok → Except String (PyNum × List Tok)
  | 0, _ => Except.error synErr
  | _ + 1, Tok.num q :: ts => Except.ok (q, ts)
  | f + 1, Tok.lpar :: ts =>
      (match parseExpr f ts with
       | Except.error e => Except.error e
       | Except.ok (v, ts1) =>
           match ts1 with
           | Tok.rpar :: ts2 => Except.ok (v, ts2)
           | _ => Except.error synErr)
  | _ + 1, _ => Except.error synErr
end

/-- Python `eval` restricted to the sanitised arithmetic sublanguage
(the only shape of string the calculator ever passes to `eval`):
tokenize, parse with Python's precedence, evaluate exactly.
`Except.error` models the exception `eval` raises. -/
def pyEval (s : String) : Except String PyNum :=
  match tokenizeAux (s.data.length + 1) s.data [] with
  | none => Except.error synErr
  | some ts =>
      match parseExpr (8 * ts.length + 8) ts with
      | Except.error e => Except.error e
      | Except.ok (v, []) => Except.ok v
      | Except.ok (_, _ :: _) => Except.error synErr

/-- The character whitelist `allowed_chars` of the calculator. -/
def allowedChars : List Char := "0123456789+-*/(). ".data

/-- The characters kept by the regex `[^0-9+\-*/().\s]` substitution
(digits, the seven operator characters, and whitespace). -/
def keptChar (c : Char) : Bool :=
  c.isDigit || "+-*/().".data.contains c || c.isWhitespace

/-- `re.sub(..., '', expression)`: drop every character outside the
kept set. -/
def cleanedOf (expression : String) : String :=
  ⟨expression.data.filter keptChar⟩

/-- The string the calculator passes to `eval`, if any: the cleaned
expression when every remaining character is in `allowed_chars`,
otherwise `none` (the `ValueError` path — evaluation never attempted). -/
def evalInput (expression : String) : Option String :=
  let cleaned := cleanedOf expression
  if cleaned.data.all (fun c => decide (c ∈ allowedChars)) then some cleaned else none

/-- `AgentTools.calculator`: strip, sanitise, whitelist-check, then
`eval` with empty builtins; every failure is returned as a
`success: false` dict. -/
def calculator (expression0 : String) : JVal :=
  let expression := trimStr expression0
  match evalInput expression with
  | some cleaned =>
      (match pyEval cleaned with
       | Except.ok r =>
           JVal.dict [("expression", JVal.str expression), ("result", JVal.num r),
                      ("success", JVal.bool true)]
       | Except.error e =>
           JVal.dict [("expression", JVal.str expression), ("result", JVal.null),
                      ("success", JVal.bool false), ("error", JVal.str e)])
  | none =>
      JVal.dict [("expression", JVal.str expression), ("result", JVal.null),
                 ("success", JVal.bool false),
                 ("error", JVal.str "Invalid characters in expression")]

/-- The sentence separators of the text analyzer (`re.split('[.!?]+')`). -/
def sentenceSep (c : Char) : Bool := c = '.' || c = '!' || c = '?'

/-- The average word length computed by the text analyzer:
`sum(len(word) for word in words) / word_count if word_count > 0 else 0`. -/
def avgWordLenP (words : List String) : PyNum :=
  if words.length = 0 then ⟨0, 1⟩
  else ⟨((words.map String.length).sum : ℕ), words.length⟩

/-- Python `round(x, 2)` on an exactly-represented value: round half to
even at two decimals. -/
def round2 (x : PyNum) : PyNum :=
  let n := pFloor (pMul x ⟨100, 1⟩)
  let r := pSub (pMul x ⟨100, 1⟩) ⟨n, 1⟩
  let m := if pLt ⟨1, 2⟩ r then n + 1 else if pLt r ⟨1, 2⟩ then n
           else if n % 2 = 0 then n else n + 1
  ⟨m, 100⟩

/-- `max(words, key=len)`: Python `max` keeps the first element of
maximal length. -/
def pyMaxLen (ws : List String) : String :=
  match ws with
  | [] => ""
  | w :: rest => rest.foldl (fun best x => if best.length < x.length then x else best) w

/-- `AgentTools.text_analyzer`: deterministic statistics over the input
text.  The Python `try` body cannot raise, so the model is total and the
`except` branch is unreachable. -/
def text_analyzer (text : String) : JVal :=
  let words := pySplit text
  let sentences := ((splitDrop sentenceSep text.data []).map trimStr).filter (fun x => x ≠ "")
  let char_count := text.length
  let char_count_no_spaces := (text.data.filter (fun c => c ≠ ' ')).length
  let word_count := words.length
  let unique_words := ((words.map lowerStr).dedup).length
  let awl := avgWordLenP words
  let sentence_count := sentences.length
  let asl : PyNum := if sentence_count = 0 then ⟨0, 1⟩ else ⟨(word_count : ℤ), sentence_count⟩
  let longest_word := pyMaxLen words
  JVal.dict
    [("text_length", JVal.num ⟨(char_count : ℤ), 1⟩),
     ("text_length_no_spaces", JVal.num ⟨(char_count_no_spaces : ℤ), 1⟩),
     ("word_count", JVal.num ⟨(word_count : ℤ), 1⟩),
     ("unique_words", JVal.num ⟨(unique_words : ℤ), 1⟩),
     ("sentence_count", JVal.num ⟨(sentence_count : ℤ), 1⟩),
     ("avg_word_length", JVal.num (round2 awl)),
     ("avg_sentence_length", JVal.num (round2 asl)),
     ("longest_word", JVal.str longest_word),
     ("longest_word_length", JVal.num ⟨(longest_word.length : ℤ), 1⟩),
     ("readability", JVal.str (if pLt awl ⟨5, 1⟩ then "simple"
                               else if pLt awl ⟨7, 1⟩ then "moderate" else "complex"))]

/-- Outcome of the `requests.get` call and HTML parsing inside the
search tool: an exception, or a response with a status code and the
`(title, snippet)` pairs extracted from it. -/
inductive HttpOutcome where
  | raiseErr (msg : String)
  | response (code : ℕ) (items : List (String × String))

/-- `AgentTools.search`: DuckDuckGo HTML search over the HTTP oracle.
No branch of the source ever adds a `success` key. -/
def search (o : HttpOutcome) (query : String) : JVal :=
  match o with
  | HttpOutcome.raiseErr e =>
      JVal.dict [("query", JVal.str query), ("results", JVal.list []),
                 ("total_results", JVal.num ⟨0, 1⟩), ("error", JVal.str e)]
  | HttpOutcome.response code items =>
      if code ≠ 200 then
        JVal.dict [("query", JVal.str query), ("results", JVal.list []),
                   ("total_results", JVal.num ⟨0, 1⟩),
                   ("error", JVal.str ("Search failed with status code: " ++ toString code))]
      else
        let results := (items.take 5).map
          (fun p => JVal.dict [("title", JVal.str p.1), ("snippet", JVal.str p.2)])
        JVal.dict [("query", JVal.str query), ("results", JVal.list results),
                   ("total_results", JVal.num ⟨(results.length : ℤ), 1⟩)]

/-- The fields of the `yfinance` ticker `info` dict that the financial
tool reads. -/
structure FinInfo where
  currentPrice : Option PyNum
  regularMarketPrice : Option PyNum
  previousClose : Option PyNum
  longName : Option String
  shortName : Option String
  currency : Option String
  marketState : Option String

/-- Outcome of the `yfinance` call: an exception, or the `info` dict. -/
inductive FinOutcome where
  | raiseErr (msg : String)
  | info (i : FinInfo)

/-- Python truthiness of an optional number (`None`, `0` and `0.0` are
falsy). -/
def truthyNum : Option PyNum → Bool
  | none => false
  | some q => !pIsZero q

/-- Python `a or b` over optional numbers. -/
def orNum (a b : Option PyNum) : Option PyNum := if truthyNum a then a else b

/-- Python `a or b` where `a` is an optional string and `b` a string
(the empty string is falsy). -/
def orStr (a : Option String) (b : String) : String :=
  match a with
  | some s => if s = "" then b else s
  | none => b

/-- `AgentTools.get_financial_data` over the market-data oracle; `now`
is the formatted wall-clock timestamp. -/
def get_financial_data (o : FinOutcome) (now : String) (symbol : String) : JVal :=
  match o with
  | FinOutcome.raiseErr e =>
      JVal.dict [("symbol", JVal.str symbol), ("error", JVal.str e),
                 ("success", JVal.bool false)]
  | FinOutcome.info i =>
      let current_price := orNum i.currentPrice (orNum i.regularMarketPrice i.previousClose)
      if truthyNum current_price = false then
        JVal.dict [("symbol", JVal.str symbol),
                   ("error", JVal.str ("Could not fetch price for " ++ symbol)),
                   ("success", JVal.bool false)]
      else
        let cp := current_price.getD ⟨0, 1⟩
        let name := orStr i.longName (orStr i.shortName symbol)
        let currency := (i.currency).getD "USD"
        let previous_close := (i.previousClose).getD cp
        let change_pct : PyNum :=
          if pIsZero previous_close then ⟨0, 1⟩
          else pMul (pDiv (pSub cp previous_close) previous_close) ⟨100, 1⟩
        let market_state := (i.marketState).getD "unknown"
        JVal.dict
          [("symbol", JVal.str symbol), ("name", JVal.str name),
           ("current_price", JVal.num cp), ("currency", JVal.str currency),
           ("change_percent", JVal.num (round2 change_pct)),
           ("market_state", JVal.str market_state),
           ("timestamp", JVal.str now), ("success", JVal.bool true)]

/-- The fixed commodity-name → ticker-symbol table. -/
def commoditySymbols : List (String × String) :=
  [("silver", "SI=F"), ("gold", "GC=F"), ("oil", "CL=F"), ("crude oil", "CL=F"),
   ("copper", "HG=F"), ("platinum", "PL=F"), ("palladium", "PA=F"),
   ("natural gas", "NG=F"), ("wheat", "ZW=F"), ("corn", "ZC=F"), ("soybeans", "ZS=F")]

/-- `AgentTools.commodity_price`: map the name through the fixed table,
delegate to the financial tool, and tag successful results with the
commodity name. -/
def commodity_price (o : FinOutcome) (now : String) (commodity : String) : JVal :=
  let commodity_lower := trimStr (lowerStr commodity)
  match commoditySymbols.lookup commodity_lower with
  | none =>
      JVal.dict
        [("commodity", JVal.str commodity),
         ("error", JVal.str ("Unknown commodity. Available: " ++
            String.intercalate ", " (commoditySymbols.map Prod.fst))),
         ("success", JVal.bool false)]
  | some symbol =>
      let result := get_financial_data o now symbol
      match lookupKey result "success" with
      | some (JVal.bool true) => jdictSet result "commodity" (JVal.str commodity)
      | _ => result

/-- The registry of actual tool callables, closed over the external
oracles.  Tools return values and never raise. -/
def realTools (ho : HttpOutcome) (fo : FinOutcome) (now : String) : ToolImpl := fun t s =>
  match t with
  | ToolType.SEARCH => Except.ok (search ho s)
  | ToolType.CALCULATOR => Except.ok (calculator s)
  | ToolType.TEXT_ANALYZER => Except.ok (text_analyzer s)
  | ToolType.FINANCIAL_DATA => Except.ok (get_financial_data fo now s)
  | ToolType.COMMODITY_PRICE => Except.ok (commodity_price fo now s)
  | ToolType.NONE => Except.ok JVal.null

/-! ## Planner -/

/-- One JSON object from the plan array the LLM returns, with each of
the keys `step_data.get(...)` reads (absent keys are `none`). -/
structure RawStep where
  step : Option ℤ
  description : Option String
  tool : Option String
  dependencies : Option (List ℤ)
  input : Option String

/-- Outcome of the planner's LLM request plus JSON parse: `failure`
covers a raised request, unparsable JSON, and a payload that is not an
array of objects (iterating it raises inside the `try`); `parsed` is a
successfully decoded array of objects. -/
inductive PlanLLMOutcome where
  | failure (msg : String)
  | parsed (items : List RawStep)

/-- `ToolType[name]`: the enum member lookup, `none` on `KeyError`. -/
def toolTypeOfName (s : String) : Option ToolType :=
  if s = "SEARCH" then some ToolType.SEARCH
  else if s = "CALCULATOR" then some ToolType.CALCULATOR
  else if s = "TEXT_ANALYZER" then some ToolType.TEXT_ANALYZER
  else if s = "FINANCIAL_DATA" then some ToolType.FINANCIAL_DATA
  else if s = "COMMODITY_PRICE" then some ToolType.COMMODITY_PRICE
  else if s = "NONE" then some ToolType.NONE
  else none

/-- The planner's conversion loop: each step dict becomes a `PlanStep`,
unknown tool names are coerced to `NONE`, a missing step number defaults
to `len(steps) + 1`. -/
def buildSteps : List RawStep → List PlanStep → List PlanStep
  | [], acc => acc.reverse
  | sd :: rest, acc =>
      let tool_name := upperStr (sd.tool.getD "NONE")
      let tool_type := (toolTypeOfName tool_name).getD ToolType.NONE
      let step : PlanStep :=
        { step_number := sd.step.getD ((acc.length : ℤ) + 1)
          description := sd.description.getD ""
          required_tool := tool_type
          dependencies := sd.dependencies.getD []
          tool_input := sd.input.getD "" }
      buildSteps rest (step :: acc)

/-- The planner's fallback plan: a single `NONE` step carrying the
query verbatim. -/
def fallbackPlan (query : String) : List PlanStep :=
  [{ step_number := 1, description := "Process query directly",
     required_tool := ToolType.NONE, dependencies := [], tool_input := query }]

/-- `Planner.create_plan` over the LLM oracle. -/
def create_plan (o : PlanLLMOutcome) (query : String) : List PlanStep :=
  match o with
  | PlanLLMOutcome.failure _ => fallbackPlan query
  | PlanLLMOutcome.parsed items => buildSteps items []

/-! ## Validator -/

/-- Floor of the base-2 logarithm of a positive fraction, by fuelled
scaling into `[1, 2)`. -/
def floorLog2Fuel : ℕ → PyNum → ℤ → ℤ
  | 0, _, e => e
  | f + 1, x, e =>
      if pLt x ⟨1, 1⟩ then floorLog2Fuel f (pMul x ⟨2, 1⟩) (e - 1)
      else if pLe ⟨2, 1⟩ x then floorLog2Fuel f (pDiv x ⟨2, 1⟩) (e + 1)
      else e

/-- Round a non-negative fraction to the nearest IEEE-754
double-precision value (round half to even on a 53-bit significand):
the exact value of the Python float nearest to `x`. -/
def roundDouble (x : PyNum) : PyNum :=
  if pLe x ⟨0, 1⟩ then ⟨0, 1⟩
  else
    let e : ℤ := floorLog2Fuel 300 x 0 - 52
    let q : PyNum := if 0 ≤ e then pDiv x ⟨2 ^ e.toNat, 1⟩ else pMul x ⟨(2 ^ (-e).toNat : ℕ), 1⟩
    let m0 : ℤ := pFloor q
    let r : PyNum := pSub q ⟨m0, 1⟩
    let m : ℤ := if pLt ⟨1, 2⟩ r then m0 + 1 else if pLt r ⟨1, 2⟩ then m0
                 else if m0 % 2 = 0 then m0 else m0 + 1
    if 0 ≤ e then ⟨m * 2 ^ e.toNat, 1⟩ else ⟨m, (2 ^ (-e).toNat : ℕ)⟩

/-- `int((successful_steps / total_steps) * 100)` as Python computes it:
correctly-rounded double division, exact scaling by 100 followed by a
second rounding, then truncation. -/
def intDivTimes100 (s t : ℕ) : ℤ :=
  pFloor (roundDouble (pMul (roundDouble ⟨(s : ℤ), t⟩) ⟨100, 1⟩))

/-- `sum(1 for r in results.values() if r.success)`. -/
def successCount (results : Ledger) : ℕ :=
  (results.filter (fun p => p.2.success)).length

/-- The deterministic heuristic report the validator falls back to when
the LLM call or the JSON parse fails. -/
def validateFallback (results : Ledger) : JVal :=
  let successful_steps := successCount results
  let total_steps := results.length
  JVal.dict
    [("valid", JVal.bool (decide (successful_steps = total_steps))),
     ("confidence_score", JVal.num (if total_steps = 0 then ⟨0, 1⟩
        else ⟨intDivTimes100 successful_steps total_steps, 1⟩)),
     ("warnings", if successful_steps = total_steps then JVal.list []
        else JVal.list [JVal.str "Some steps failed"]),
     ("errors", JVal.list []),
     ("recommendation", JVal.str (if successful_steps = total_steps then "ACCEPT"
        else "RETRY_WITH_CAUTION")),
     ("reasoning", JVal.str ("Basic validation: " ++ toString successful_steps ++ "/" ++
        toString total_steps ++ " steps succeeded"))]

/-- Outcome of the validator's LLM request plus JSON parse. -/
inductive ValidateLLMOutcome where
  | failure (msg : String)
  | parsed (report : JVal)

/-- `Validator.validate_results` over the LLM oracle (`original_query`
and `plan` feed only the prompt inside the oracle). -/
def validate_results (o : ValidateLLMOutcome) (_original_query : String)
    (_plan : List PlanStep) (results : Ledger) : JVal :=
  match o with
  | ValidateLLMOutcome.parsed report => report
  | ValidateLLMOutcome.failure _ => validateFallback results

/-! ## Agent entry point -/

/-- The four pipeline stages as the `run` method calls them; each may
raise (`Except.error`). -/
structure PipelineEnv where
  plannerStage : String → Except String (List PlanStep)
  executeStage : List PlanStep → Except String Ledger
  validateStage : String → List PlanStep → Ledger → Except String JVal
  synthStage : String → List PlanStep → Ledger → Except String String

/-- The user-facing apology text built in the entry point's `except`
handler. -/
def apologyMsg (e : String) : String :=
  "I apologize, but I encountered an error while processing your request: " ++ e

/-- `MCPStyleAgent.run`: the whole pipeline inside one `try`, whose
handler returns the apology string normally. -/
def runAgent (env : PipelineEnv) (query : String) : String :=
  match env.plannerStage query with
  | Except.error e => apologyMsg e
  | Except.ok plan =>
      match env.executeStage plan with
      | Except.error e => apologyMsg e
      | Except.ok results =>
          match env.validateStage query plan results with
          | Except.error e => apologyMsg e
          | Except.ok _ =>
              match env.synthStage query plan results with
              | Except.error e => apologyMsg e
              | Except.ok final_response => final_response

/-! ## The spec's reading of input preparation -/

/-- Follows the spec's words for `prepare_input`, for comparison with
`validate_tool_input`: substitute each successful dependency's
stringified output in place of the placeholder text `"step <n>"`
within the input, leaving the rest of the text intact. -/
def substituteSpec (step : PlanStep) (previous_results : Ledger) : String :=
  step.dependencies.foldl
    (fun input_str dep_step =>
      match previous_results.lookup dep_step with
      | some result =>
          if result.success then
            strReplace input_str ("step " ++ toString dep_step) (pyStrOpt result.output)
          else input_str
      | none => input_str)
    step.tool_input

/-! ## Helper lemmas -/

theorem lookup_eq_none_of_not_mem {l : Ledger} {k : ℤ} (h : k ∉ l.map Prod.fst) :
    l.lookup k = none := by
  induction l with
  | nil => rfl
  | cons p rest ih =>
      simp only [List.map_cons, List.mem_cons] at h
      push_neg at h
      have hne : (k == p.1) = false := by
        rw [beq_eq_false_iff_ne]
        exact h.1
      simp only [List.lookup, hne]
      exact ih h.2

theorem lookup_isSome_of_mem {l : Ledger} {k : ℤ} (h : k ∈ l.map Prod.fst) :
    (l.lookup k).isSome = true := by
  induction l with
  | nil => simp at h
  | cons p rest ih =>
      simp only [List.map_cons, List.mem_cons] at h
      by_cases hk : k = p.1
      · simp only [List.lookup, show (k == p.1) = true from beq_iff_eq.mpr hk]
        rfl
      · have hne : (k == p.1) = false := by
          rw [beq_eq_false_iff_ne]; exact hk
        have hmem : k ∈ rest.map Prod.fst := by
          rcases h with h | h
          · exact absurd h hk
          · exact h
        simp only [List.lookup, hne]
        exact ih hmem

theorem ledgerInsert_fresh {l : Ledger} {k : ℤ} (v : ExecutionResult)
    (h : k ∉ l.map Prod.fst) : ledgerInsert k v l = l ++ [(k, v)] := by
  simp [ledgerInsert, lookup_eq_none_of_not_mem h]

theorem execute_plan_aux_keys (tools : ToolImpl) :
    ∀ (rest : List PlanStep) (results : Ledger),
      (results.map Prod.fst ++ rest.map PlanStep.step_number).Nodup →
      (execute_plan_aux tools rest results).map Prod.fst =
        results.map Prod.fst ++ rest.map PlanStep.step_number := by
  intro rest
  induction rest with
  | nil => intro results _; simp [execute_plan_aux]
  | cons step rest ih =>
      intro results hnd
      have hmem : step.step_number ∉ results.map Prod.fst := by
        rw [List.nodup_append] at hnd
        intro hmemA
        exact hnd.2.2 hmemA (List.mem_cons_self _ _)
      have hins := ledgerInsert_fresh (execStep tools results step) hmem
      have h2 : ((results ++ [(step.step_number, execStep tools results step)]).map Prod.fst ++
          rest.map PlanStep.step_number).Nodup := by
        simpa [List.append_assoc] using hnd
      calc (execute_plan_aux tools (step :: rest) results).map Prod.fst
          = (execute_plan_aux tools rest
              (results ++ [(step.step_number, execStep tools results step)])).map Prod.fst := by
            simp only [execute_plan_aux]; rw [hins]
        _ = (results ++ [(step.step_number, execStep tools results step)]).map Prod.fst ++
              rest.map PlanStep.step_number := ih _ h2
        _ = results.map Prod.fst ++ (step :: rest).map PlanStep.step_number := by
              simp [List.append_assoc]

/-! ## Concrete stub inputs used by witnesses and counterexamples -/

/-- A registry whose callables all return a value. -/
def toolsOk : ToolImpl := fun _ _ => Except.ok JVal.null

/-- A registry whose callables all raise. -/
def toolsRaise : ToolImpl := fun _ s => Except.error ("boom: " ++ s)

/-- Two steps with unique step numbers: a raising tool and a missing
dependency. -/
def c1Plan : List PlanStep :=
  [{ step_number := 1, description := "a", required_tool := ToolType.CALCULATOR,
     dependencies := [], tool_input := "x" },
   { step_number := 2, description := "b", required_tool := ToolType.NONE,
     dependencies := [5], tool_input := "" }]

/-! ## C1 -/

/-- C1: for every plan whose steps have unique step numbers, and for
arbitrary tool behaviour (tools may return or raise),
`Executor.execute_plan` returns a ledger holding exactly one
`ExecutionResult` keyed by each step's `step_number` — failed steps
included.  The model is a total function, the image of "never raises". -/
theorem c1_executor_complete_ledger (tools : ToolImpl) (plan : List PlanStep)
    (h : (plan.map PlanStep.step_number).Nodup) :
    (execute_plan tools plan).map Prod.fst = plan.map PlanStep.step_number ∧
    ∀ step ∈ plan, ((execute_plan tools plan).lookup step.step_number).isSome = true := by
  have hkeys : (execute_plan tools plan).map Prod.fst = plan.map PlanStep.step_number := by
    simpa [execute_plan] using execute_plan_aux_keys tools plan [] (by simpa using h)
  refine ⟨hkeys, ?_⟩
  intro step hstep
  apply lookup_isSome_of_mem
  rw [hkeys]
  exact List.mem_map_of_mem _ hstep

/-- Witness for C1: a concrete two-step plan whose first step's tool
raises and whose second step has a missing dependency still yields a
ledger keyed exactly `[1, 2]`. -/
theorem c1_executor_complete_ledger_witness :
    (c1Plan.map PlanStep.step_number).Nodup ∧
    (execute_plan toolsRaise c1Plan).map Prod.fst = c1Plan.map PlanStep.step_number :=
  ⟨by decide, (c1_executor_complete_ledger toolsRaise c1Plan (by decide)).1⟩

/-! ## C2 -/

theorem firstFailedDep_exists {results : Ledger} {ds : List ℤ} {d : ℤ}
    (hmem : d ∈ ds) (hfail : depFailed results d = true) :
    ∃ d0, firstFailedDep results ds = some d0 ∧ d0 ∈ ds ∧ depFailed results d0 = true := by
  induction ds with
  | nil => simp at hmem
  | cons a as ih =>
      by_cases ha : depFailed results a = true
      · exact ⟨a, by simp [firstFailedDep, ha], List.mem_cons_self _ _, ha⟩
      · have ha' : depFailed results a = false := by
          cases hh : depFailed results a
          · rfl
          · exact absurd hh ha
        have hmem' : d ∈ as := by
          rcases List.mem_cons.mp hmem with rfl | h
          · exact absurd hfail ha
          · exact h
        rcases ih hmem' with ⟨d0, h1, h2, h3⟩
        exact ⟨d0, by simpa [firstFailedDep, ha'] using h1, List.mem_cons_of_mem _ h2, h3⟩

/-- A single step declaring two dependencies, neither of which is in
the ledger. -/
def c2Plan : List PlanStep :=
  [{ step_number := 3, description := "c", required_tool := ToolType.NONE,
     dependencies := [1, 2], tool_input := "" }]

/-- C2 counterexample: a step with the two failed (absent) dependencies
1 and 2 is recorded with an error naming only dependency 1 — the error
message does not name dependency 2, refuting "an error message naming
dependency d" for every failed dependency d. -/
theorem c2_first_dep_only_counterexample :
    (execute_plan toolsOk c2Plan).lookup 3 =
      some { step_number := 3, success := false, output := none,
             error := some "Dependency step 1 failed or not completed" } ∧
    strContains "Dependency step 1 failed or not completed" "2" = false :=
  ⟨rfl, rfl⟩

/-- A three-step chain: step 1's tool raises, step 2 depends on 1,
step 3 depends on 2. -/
def chainPlan : List PlanStep :=
  [{ step_number := 1, description := "first", required_tool := ToolType.CALCULATOR,
     dependencies := [], tool_input := "x" },
   { step_number := 2, description := "second", required_tool := ToolType.NONE,
     dependencies := [1], tool_input := "" },
   { step_number := 3, description := "third", required_tool := ToolType.NONE,
     dependencies := [2], tool_input := "" }]

/-- C2 (amended): for every step with some declared dependency that is
absent from the ledger or failed, the executor records the step as
`success = false` with an error naming the <em>first</em> such
dependency in declaration order, and continues; failures cascade
through chains (concretely: step 1 fails, so steps 2 and 3 are both
recorded failed with the dependency message). -/
theorem c2_dependency_failure_amended :
    (∀ (tools : ToolImpl) (results : Ledger) (step : PlanStep) (d : ℤ),
        d ∈ step.dependencies → depFailed results d = true →
        (execStep tools results step).success = false ∧
        ∃ d0, firstFailedDep results step.dependencies = some d0 ∧ d0 ∈ step.dependencies ∧
          depFailed results d0 = true ∧
          (execStep tools results step).error = some (depErrorMsg d0)) ∧
    ((execute_plan toolsRaise chainPlan).lookup 2 =
        some { step_number := 2, success := false, output := none,
               error := some (depErrorMsg 1) } ∧
     (execute_plan toolsRaise chainPlan).lookup 3 =
        some { step_number := 3, success := false, output := none,
               error := some (depErrorMsg 2) }) := by
  constructor
  · intro tools results step d hmem hfail
    rcases firstFailedDep_exists hmem hfail with ⟨d0, h1, h2, h3⟩
    refine ⟨?_, d0, h1, h2, h3, ?_⟩
    · simp [execStep, execStepBody, h1]
    · simp [execStep, execStepBody, h1]
  · exact ⟨rfl, rfl⟩

/-- Witness for C2 (amended) at the concrete step of `c2Plan` against
an empty ledger. -/
theorem c2_dependency_failure_amended_witness :
    ((1 : ℤ) ∈ ([1, 2] : List ℤ) ∧ depFailed [] 1 = true) ∧
    ((execStep toolsOk []
        { step_number := 3, description := "c", required_tool := ToolType.NONE,
          dependencies := [1, 2], tool_input := "" }).success = false ∧
      ∃ d0, firstFailedDep [] [1, 2] = some d0 ∧ d0 ∈ ([1, 2] : List ℤ) ∧
        depFailed [] d0 = true ∧
        (execStep toolsOk []
          { step_number := 3, description := "c", required_tool := ToolType.NONE,
            dependencies := [1, 2], tool_input := "" }).error = some (depErrorMsg d0)) :=
  ⟨⟨by decide, rfl⟩,
   c2_dependency_failure_amended.1 toolsOk []
     { step_number := 3, description := "c", required_tool := ToolType.NONE,
       dependencies := [1, 2], tool_input := "" } 1 (by decide) rfl⟩

/-! ## C3 -/

theorem vtiStep_cases (prev : Ledger) (s : String) (d : ℤ) :
    vtiStep prev s d = s ∨
    ∃ r, prev.lookup d = some r ∧ r.success = true ∧ vtiStep prev s d = pyStrOpt r.output := by
  unfold vtiStep
  cases h : prev.lookup d with
  | none => left; rfl
  | some r =>
      by_cases hs : r.success = true
      · by_cases hc : strContains (lowerStr s) ("step " ++ toString d) = true
        · right; exact ⟨r, rfl, hs, by simp [hs, hc]⟩
        · left; simp [hs, hc]
      · left; simp [hs]

theorem vtiFold_cases (prev : Ledger) : ∀ (ds : List ℤ) (init : String),
    ds.foldl (vtiStep prev) init = init ∨
    ∃ d r, d ∈ ds ∧ prev.lookup d = some r ∧ r.success = true ∧
      ds.foldl (vtiStep prev) init = pyStrOpt r.output := by
  intro ds
  induction ds with
  | nil => intro init; left; rfl
  | cons a as ih =>
      intro init
      rcases vtiStep_cases prev init a with h | ⟨r, hl, hs, hv⟩
      · rcases ih (vtiStep prev init a) with h2 | ⟨d, r2, hd, hl2, hs2, hv2⟩
        · left; rw [List.foldl_cons, h2, h]
        · right
          exact ⟨d, r2, List.mem_cons_of_mem _ hd, hl2, hs2, by rw [List.foldl_cons]; exact hv2⟩
      · rcases ih (vtiStep prev init a) with h2 | ⟨d, r2, hd, hl2, hs2, hv2⟩
        · right; exact ⟨a, r, List.mem_cons_self _ _, hl, hs, by rw [List.foldl_cons, h2, hv]⟩
        · right
          exact ⟨d, r2, List.mem_cons_of_mem _ hd, hl2, hs2, by rw [List.foldl_cons]; exact hv2⟩

/-- A step whose input text refers to its dependency amid other words. -/
def c3Step : PlanStep :=
  { step_number := 2, description := "analyze", required_tool := ToolType.TEXT_ANALYZER,
    dependencies := [1], tool_input := "analyze results from step 1 now" }

/-- A ledger where that dependency succeeded with a string output. -/
def c3Prev : Ledger :=
  [(1, { step_number := 1, success := true, output := some (JVal.str "FOUND"),
         error := none })]

/-- C3 counterexample: with input "analyze results from step 1 now" and
a successful dependency 1 whose output is "FOUND", the code returns
"FOUND" — the whole input is replaced — while substring substitution
(the claim, rendered by `substituteSpec`) would keep the surrounding
text.  The two disagree, so the substitution does not leave the rest of
the input intact. -/
theorem c3_whole_input_replaced_counterexample :
    validate_tool_input c3Step c3Prev = "FOUND" ∧
    substituteSpec c3Step c3Prev = "analyze results from FOUND now" ∧
    validate_tool_input c3Step c3Prev ≠ substituteSpec c3Step c3Prev :=
  ⟨rfl, rfl, by decide⟩

/-- C3 (amended): `validate_tool_input` never splices text — its result
is either the original `tool_input` unchanged, or the stringified
output of one successful dependency replacing the input wholesale; for
a single declared dependency with a successful prior result, the whole
input is replaced exactly when the placeholder `"step <n>"` occurs in
the lowercased input. -/
theorem c3_input_substitution_amended :
    (∀ (step : PlanStep) (prev : Ledger),
        validate_tool_input step prev = step.tool_input ∨
        ∃ d r, d ∈ step.dependencies ∧ prev.lookup d = some r ∧ r.success = true ∧
          validate_tool_input step prev = pyStrOpt r.output) ∧
    (∀ (step : PlanStep) (prev : Ledger) (d : ℤ) (r : ExecutionResult),
        step.dependencies = [d] → prev.lookup d = some r → r.success = true →
        validate_tool_input step prev =
          (if strContains (lowerStr step.tool_input) ("step " ++ toString d)
           then pyStrOpt r.output else step.tool_input)) := by
  constructor
  · intro step prev
    exact vtiFold_cases prev step.dependencies step.tool_input
  · intro step prev d r hd hl hs
    unfold validate_tool_input
    rw [hd]
    show vtiStep prev step.tool_input d = _
    unfold vtiStep
    rw [hl]
    simp [hs]

/-- Witness for C3 (amended) at the concrete step and ledger of the
counterexample. -/
theorem c3_input_substitution_amended_witness :
    (c3Step.dependencies = [1] ∧
     c3Prev.lookup 1 = some (ExecutionResult.mk 1 true (some (JVal.str "FOUND")) none)) ∧
    validate_tool_input c3Step c3Prev =
      (if strContains (lowerStr c3Step.tool_input) ("step " ++ toString (1 : ℤ))
       then pyStrOpt (some (JVal.str "FOUND")) else c3Step.tool_input) :=
  ⟨⟨rfl, rfl⟩,
   c3_input_substitution_amended.2 c3Step c3Prev 1
     (ExecutionResult.mk 1 true (some (JVal.str "FOUND")) none) rfl rfl rfl⟩

/-! ## C4 -/

theorem buildSteps_length : ∀ (items : List RawStep) (acc : List PlanStep),
    (buildSteps items acc).length = acc.length + items.length := by
  intro items
  induction items with
  | nil => intro acc; simp [buildSteps]
  | cons sd rest ih =>
      intro acc
      rw [buildSteps, ih]
      simp only [List.length_cons]
      omega

/-- C4 counterexample: when the LLM's response parses as the valid JSON
array `[]`, the planner's conversion loop produces the empty plan — the
returned plan is not non-empty, and the single-step fallback is not
used. -/
theorem c4_empty_plan_counterexample :
    create_plan (PlanLLMOutcome.parsed []) "hi" = [] := rfl

/-- C4 (amended): on any LLM-request or JSON-parse failure,
`create_plan` returns exactly one step with tool `NONE`, no
dependencies, and `tool_input` equal to the original query verbatim;
the returned plan is non-empty whenever the parsed step array is
non-empty, but a parsed empty array yields an empty plan. -/
theorem c4_planner_fallback_amended :
    (∀ (q m : String),
        create_plan (PlanLLMOutcome.failure m) q =
          [{ step_number := 1, description := "Process query directly",
             required_tool := ToolType.NONE, dependencies := [], tool_input := q }]) ∧
    (∀ (q : String) (items : List RawStep), items ≠ [] →
        create_plan (PlanLLMOutcome.parsed items) q ≠ []) := by
  constructor
  · intro q m; rfl
  · intro q items hne hempty
    have hlen := buildSteps_length items []
    rw [show create_plan (PlanLLMOutcome.parsed items) q = buildSteps items [] from rfl] at hempty
    rw [hempty] at hlen
    simp at hlen
    exact hne (List.length_eq_zero.mp hlen.symm)

/-- Witness for C4 (amended): the fallback at a concrete query, and a
concrete one-element parsed array yielding a non-empty plan. -/
theorem c4_planner_fallback_amended_witness :
    create_plan (PlanLLMOutcome.failure "parse error") "what is 2+2" =
      [{ step_number := 1, description := "Process query directly",
         required_tool := ToolType.NONE, dependencies := [], tool_input := "what is 2+2" }] ∧
    create_plan (PlanLLMOutcome.parsed [RawStep.mk (some 1) (some "d") (some "SEARCH") (some []) (some "i")]) "q" ≠ [] :=
  ⟨c4_planner_fallback_amended.1 "what is 2+2" "parse error",
   c4_planner_fallback_amended.2 "q"
     [RawStep.mk (some 1) (some "d") (some "SEARCH") (some []) (some "i")]
     (List.cons_ne_nil _ _)⟩

/-! ## C5 -/

/-- C5 counterexample: the search tool's result dict contains no
`success` key — on the status-200 path and on the exception path alike
— refuting "every tool in the registry returns a structured mapping
that includes at minimum a success indicator". -/
theorem c5_search_no_success_key_counterexample :
    hasKey (search (HttpOutcome.response 200 []) "q") "success" = false ∧
    hasKey (search (HttpOutcome.raiseErr "connection reset") "q") "success" = false :=
  ⟨rfl, rfl⟩

/-- C5 (amended): no tool raises (each returns a dict for every oracle
outcome), and the calculator, financial-data and commodity tools do
return `success: true` or `success: false` plus an `error` field on
every path; but the search tool never includes a `success` key (its
failures carry only an `error` field and empty results), and the text
analyzer's normal result carries no `success` key either. -/
theorem c5_tool_result_shape_amended :
    (∀ e : String,
        lookupKey (calculator e) "success" = some (JVal.bool true) ∨
        (lookupKey (calculator e) "success" = some (JVal.bool false) ∧
          hasKey (calculator e) "error" = true)) ∧
    (∀ (o : FinOutcome) (now sym : String),
        lookupKey (get_financial_data o now sym) "success" = some (JVal.bool true) ∨
        (lookupKey (get_financial_data o now sym) "success" = some (JVal.bool false) ∧
          hasKey (get_financial_data o now sym) "error" = true)) ∧
    (∀ (o : FinOutcome) (now c : String),
        lookupKey (commodity_price o now c) "success" = some (JVal.bool true) ∨
        (lookupKey (commodity_price o now c) "success" = some (JVal.bool false) ∧
          hasKey (commodity_price o now c) "error" = true)) ∧
    (∀ (o : HttpOutcome) (q : String), hasKey (search o q) "success" = false) ∧
    (∀ (m q : String), hasKey (search (HttpOutcome.raiseErr m) q) "error" = true) ∧
    (∀ (code : ℕ) (items : List (String × String)) (q : String), code ≠ 200 →
        hasKey (search (HttpOutcome.response code items) q) "error" = true) ∧
    (∀ (items : List (String × String)) (q : String),
        hasKey (search (HttpOutcome.response 200 items) q) "error" = false) ∧
    (∀ t : String, hasKey (text_analyzer t) "success" = false) := by
  refine ⟨?_, ?_, ?_, ?_, ?_, ?_, ?_, ?_⟩
  · intro e
    unfold calculator
    dsimp only
    cases h : evalInput (trimStr e) with
    | none => right; exact ⟨rfl, rfl⟩
    | some cl =>
        dsimp only
        cases h2 : pyEval cl with
        | ok r => left; rfl
        | error m => right; exact ⟨rfl, rfl⟩
  · intro o now sym
    cases o with
    | raiseErr m => right; exact ⟨rfl, rfl⟩
    | info i =>
        unfold get_financial_data
        dsimp only
        split
        · right; exact ⟨rfl, rfl⟩
        · left; rfl
  · intro o now c
    unfold commodity_price
    dsimp only
    cases h : commoditySymbols.lookup (trimStr (lowerStr c)) with
    | none => right; exact ⟨rfl, rfl⟩
    | some sym =>
        dsimp only
        cases o with
        | raiseErr m => right; exact ⟨rfl, rfl⟩
        | info i =>
            unfold get_financial_data
            dsimp only
            cases hp : truthyNum (orNum i.currentPrice (orNum i.regularMarketPrice i.previousClose)) with
            | false => right; exact ⟨rfl, rfl⟩
            | true => left; rfl
  · intro o q
    cases o with
    | raiseErr m => rfl
    | response code items =>
        unfold search
        dsimp only
        by_cases hc : code ≠ 200
        · rw [if_pos hc]; rfl
        · rw [if_neg hc]; rfl
  · intro m q; rfl
  · intro code items q h
    unfold search
    dsimp only
    rw [if_pos h]
    rfl
  · intro items q; rfl
  · intro t; rfl

/-- Witness for C5 (amended) at a non-200 status code. -/
theorem c5_tool_result_shape_amended_witness :
    (500 : ℕ) ≠ 200 ∧
    hasKey (search (HttpOutcome.response 500 []) "gold price") "error" = true :=
  ⟨by decide, c5_tool_result_shape_amended.2.2.2.2.2.1 500 [] "gold price" (by decide)⟩

/-! ## C6 -/

/-- A two-step plan: the calculator runs on input it rejects
("DROP TABLE", whose result dict reports `success: False`), and a
second step declares a dependency on it. -/
def c6Plan : List PlanStep :=
  [{ step_number := 1, description := "calc", required_tool := ToolType.CALCULATOR,
     dependencies := [], tool_input := "DROP TABLE" },
   { step_number := 2, description := "after", required_tool := ToolType.NONE,
     dependencies := [1], tool_input := "use step 1" }]

/-- The real tool registry with both network oracles failing and a
fixed timestamp. -/
def c6Tools : ToolImpl :=
  realTools (HttpOutcome.raiseErr "offline") (FinOutcome.raiseErr "offline")
    "2026-10-12 00:00:00"

/-- A concrete step used by the C6 witness. -/
def c6WitStep : PlanStep :=
  { step_number := 1, description := "w", required_tool := ToolType.CALCULATOR,
    dependencies := [], tool_input := "x" }

/-- C6: whenever a step's selected tool callable returns a value
without raising, the executor records that step with `success = true`
— even when the mapping returned by the tool itself reports
`success: false` — and a later step depending on such a step passes its
dependency check and is executed.  Concretely: the calculator rejects
"DROP TABLE" (its dict says `success: False`), yet the ledger entry for
step 1 has `success = true` and dependent step 2 also executes with
`success = true`. -/
theorem c6_executor_trusts_tool_return :
    (∀ (tools : ToolImpl) (results : Ledger) (step : PlanStep) (out : JVal),
        step.required_tool ≠ ToolType.NONE →
        firstFailedDep results step.dependencies = none →
        tools step.required_tool (validate_tool_input step results) = Except.ok out →
        execStep tools results step =
          { step_number := step.step_number, success := true, output := some out,
            error := none }) ∧
    (((execute_plan c6Tools c6Plan).lookup 1).map ExecutionResult.success = some true ∧
     (((execute_plan c6Tools c6Plan).lookup 1).bind (fun r => r.output)).bind
        (fun v => lookupKey v "success") = some (JVal.bool false) ∧
     ((execute_plan c6Tools c6Plan).lookup 2).map ExecutionResult.success = some true) := by
  constructor
  · intro tools results step out hnone hdep hok
    unfold execStep execStepBody
    rw [hdep]
    dsimp only
    unfold select_tool
    rw [if_neg hnone]
    dsimp only
    rw [hok]
  · exact ⟨rfl, rfl, rfl⟩

/-- Witness for C6 at a concrete step whose tool returns `JVal.null`. -/
theorem c6_executor_trusts_tool_return_witness :
    (c6WitStep.required_tool ≠ ToolType.NONE ∧
     firstFailedDep [] c6WitStep.dependencies = none ∧
     toolsOk c6WitStep.required_tool (validate_tool_input c6WitStep []) = Except.ok JVal.null) ∧
    execStep toolsOk [] c6WitStep =
      { step_number := 1, success := true, output := some JVal.null, error := none } :=
  ⟨⟨by decide, rfl, rfl⟩,
   c6_executor_trusts_tool_return.1 toolsOk [] c6WitStep JVal.null (by decide) rfl rfl⟩

/-! ## C7 -/

theorem allowedChars_safe :
    ∀ c ∈ allowedChars, c.isAlpha = false ∧ c ≠ Char.ofNat 95 := by
  intro c hc
  fin_cases hc <;> exact ⟨rfl, by decide⟩

/-- C7: the calculator returns `success: true, result: 100` on
"25 * 4" and `success: false` on "DROP TABLE"; every string that
reaches `eval` consists solely of whitelisted characters (digits,
`+ - * / ( ) .` and space), so evaluation is never attempted on other
input — and since the whitelist contains no letters and no underscore,
no names, function calls, or attribute access can occur during
evaluation.  When no string reaches `eval`, the result is the failure
dict. -/
theorem c7_calculator_sanitisation :
    calculator "25 * 4" =
      JVal.dict [("expression", JVal.str "25 * 4"), ("result", JVal.num ⟨100, 1⟩),
                 ("success", JVal.bool true)] ∧
    (⟨100, 1⟩ : PyNum).toQ = 100 ∧
    lookupKey (calculator "DROP TABLE") "success" = some (JVal.bool false) ∧
    (∀ (e s : String), evalInput e = some s →
        ∀ c ∈ s.data, c ∈ allowedChars ∧ c.isAlpha = false ∧ c ≠ Char.ofNat 95) ∧
    (∀ e : String, evalInput (trimStr e) = none →
        lookupKey (calculator e) "success" = some (JVal.bool false) ∧
        lookupKey (calculator e) "error" =
          some (JVal.str "Invalid characters in expression")) := by
  refine ⟨rfl, by norm_num [PyNum.toQ], rfl, ?_, ?_⟩
  · intro e s h c hcs
    unfold evalInput at h
    dsimp only at h
    by_cases hall : (cleanedOf e).data.all (fun c => decide (c ∈ allowedChars)) = true
    · rw [if_pos hall] at h
      have hs : s = cleanedOf e := (Option.some.inj h).symm
      subst hs
      have hmem : c ∈ allowedChars := by
        have := List.all_eq_true.mp hall c hcs
        simpa using this
      exact ⟨hmem, (allowedChars_safe c hmem).1, (allowedChars_safe c hmem).2⟩
    · rw [if_neg hall] at h
      exact absurd h (by simp)
  · intro e h
    unfold calculator
    dsimp only
    rw [h]
    exact ⟨rfl, rfl⟩

/-- Witness for C7: `evalInput` on "1 + 2x" keeps only whitelisted
characters; a concrete character of its output is whitelisted and
non-alphabetic; a tab survives the regex but fails the whitelist, so
`eval` is never reached and the failure dict is returned. -/
theorem c7_calculator_sanitisation_witness :
    evalInput "1 + 2x" = some "1 + 2" ∧
    (('+' : Char) ∈ allowedChars ∧ ('+' : Char).isAlpha = false ∧
      ('+' : Char) ≠ Char.ofNat 95) ∧
    (evalInput (trimStr "1\t2") = none ∧
     lookupKey (calculator "1\t2") "success" = some (JVal.bool false) ∧
     lookupKey (calculator "1\t2") "error" =
       some (JVal.str "Invalid characters in expression")) :=
  ⟨rfl,
   c7_calculator_sanitisation.2.2.2.1 "1 + 2x" "1 + 2" rfl '+' (by decide),
   ⟨rfl, (c7_calculator_sanitisation.2.2.2.2 "1\t2" rfl).1,
    (c7_calculator_sanitisation.2.2.2.2 "1\t2" rfl).2⟩⟩

/-! ## C8 -/

theorem pLt_iff_toQ {x y : PyNum} (hx : 0 < x.den) (hy : 0 < y.den) :
    pLt x y = true ↔ x.toQ < y.toQ := by
  unfold pLt PyNum.toQ
  rw [decide_eq_true_eq,
      div_lt_div_iff₀ (by exact_mod_cast hx) (by exact_mod_cast hy)]
  constructor
  · intro h; exact_mod_cast h
  · intro h; exact_mod_cast h

theorem avgWordLenP_den_pos (ws : List String) : 0 < (avgWordLenP ws).den := by
  by_cases h : ws.length = 0
  · simp [avgWordLenP, h]
  · simp only [avgWordLenP, if_neg h]
    exact Nat.pos_of_ne_zero h

/-- The exact rational average word length of a text, as the claim
states the readability thresholds. -/
def avgQ (t : String) : ℚ := (avgWordLenP (pySplit t)).toQ

theorem jstr_some_eq_iff {a b : String} :
    (some (JVal.str a) = some (JVal.str b)) ↔ a = b := by
  constructor
  · intro h; exact JVal.str.inj (Option.some.inj h)
  · intro h; rw [h]

/-- C8: on "Hello World" the text analyzer reports `word_count = 2`,
`text_length = 11`, `unique_words = 2`, and the deterministic
`longest_word = "Hello"` (one of the two maximal words); and for every
input, the readability label is "simple" iff the average word length is
below 5, "moderate" iff it is in `[5, 7)`, and "complex" iff it is at
least 7 — computed deterministically, with no external calls (the model
takes no oracle). -/
theorem c8_text_analyzer :
    lookupKey (text_analyzer "Hello World") "word_count" = some (JVal.num ⟨2, 1⟩) ∧
    lookupKey (text_analyzer "Hello World") "text_length" = some (JVal.num ⟨11, 1⟩) ∧
    lookupKey (text_analyzer "Hello World") "unique_words" = some (JVal.num ⟨2, 1⟩) ∧
    lookupKey (text_analyzer "Hello World") "longest_word" = some (JVal.str "Hello") ∧
    ("Hello" : String) ∈ (["Hello", "World"] : List String) ∧
    (∀ t : String,
        (lookupKey (text_analyzer t) "readability" = some (JVal.str "simple") ↔
          avgQ t < 5) ∧
        (lookupKey (text_analyzer t) "readability" = some (JVal.str "moderate") ↔
          5 ≤ avgQ t ∧ avgQ t < 7) ∧
        (lookupKey (text_analyzer t) "readability" = some (JVal.str "complex") ↔
          7 ≤ avgQ t)) := by
  refine ⟨rfl, rfl, rfl, rfl, by decide, ?_⟩
  intro t
  have hr : lookupKey (text_analyzer t) "readability" =
      some (JVal.str (if pLt (avgWordLenP (pySplit t)) ⟨5, 1⟩ then "simple"
        else if pLt (avgWordLenP (pySplit t)) ⟨7, 1⟩ then "moderate" else "complex")) := rfl
  have h5 : pLt (avgWordLenP (pySplit t)) ⟨5, 1⟩ = true ↔ avgQ t < 5 := by
    rw [pLt_iff_toQ (avgWordLenP_den_pos _) (by norm_num)]
    unfold avgQ
    norm_num [PyNum.toQ]
  have h7 : pLt (avgWordLenP (pySplit t)) ⟨7, 1⟩ = true ↔ avgQ t < 7 := by
    rw [pLt_iff_toQ (avgWordLenP_den_pos _) (by norm_num)]
    unfold avgQ
    norm_num [PyNum.toQ]
  rw [hr]
  by_cases hA : pLt (avgWordLenP (pySplit t)) ⟨5, 1⟩ = true
  · have hq : avgQ t < 5 := h5.mp hA
    rw [if_pos hA]
    refine ⟨?_, ?_, ?_⟩
    · rw [jstr_some_eq_iff]; exact ⟨fun _ => hq, fun _ => rfl⟩
    · rw [jstr_some_eq_iff]
      constructor
      · intro h; exact absurd h (by decide)
      · intro h; exact absurd hq (not_lt.mpr h.1)
    · rw [jstr_some_eq_iff]
      constructor
      · intro h; exact absurd h (by decide)
      · intro h; exact absurd hq (not_lt.mpr (le_trans (by norm_num) h))
  · have hq5 : ¬ avgQ t < 5 := fun hh => hA (h5.mpr hh)
    rw [if_neg hA]
    by_cases hB : pLt (avgWordLenP (pySplit t)) ⟨7, 1⟩ = true
    · have hq7 : avgQ t < 7 := h7.mp hB
      rw [if_pos hB]
      refine ⟨?_, ?_, ?_⟩
      · rw [jstr_some_eq_iff]
        constructor
        · intro h; exact absurd h (by decide)
        · intro h; exact (hq5 h).elim
      · rw [jstr_some_eq_iff]
        exact ⟨fun _ => ⟨not_lt.mp hq5, hq7⟩, fun _ => rfl⟩
      · rw [jstr_some_eq_iff]
        constructor
        · intro h; exact absurd h (by decide)
        · intro h; exact absurd hq7 (not_lt.mpr h)
    · have hq7 : ¬ avgQ t < 7 := fun hh => hB (h7.mpr hh)
      rw [if_neg hB]
      refine ⟨?_, ?_, ?_⟩
      · rw [jstr_some_eq_iff]
        constructor
        · intro h; exact absurd h (by decide)
        · intro h; exact (hq5 h).elim
      · rw [jstr_some_eq_iff]
        constructor
        · intro h; exact absurd h (by decide)
        · intro h; exact (hq7 h.2).elim
      · rw [jstr_some_eq_iff]
        exact ⟨fun _ => not_lt.mp hq7, fun _ => rfl⟩

/-! ## C9 -/

/-- A three-step ledger with exactly one successful step. -/
def c9Ledger : Ledger :=
  [(1, { step_number := 1, success := true, output := some JVal.null, error := none }),
   (2, { step_number := 2, success := false, output := none, error := some "x" }),
   (3, { step_number := 3, success := false, output := none, error := some "y" })]

/-- C9 counterexample: with 1 of 3 steps successful, the fallback
report's confidence score is the truncated integer 33, not the exact
value `100 * 1 / 3` the claim states. -/
theorem c9_confidence_truncation_counterexample :
    lookupKey (validate_results (ValidateLLMOutcome.failure "LLM unreachable") "q" []
        c9Ledger) "confidence_score" = some (JVal.num ⟨33, 1⟩) ∧
    successCount c9Ledger = 1 ∧ c9Ledger.length = 3 ∧
    (⟨33, 1⟩ : PyNum).toQ ≠ 100 * 1 / 3 :=
  ⟨rfl, rfl, rfl, by norm_num [PyNum.toQ]⟩

/-- C9 (amended): whenever the validator's LLM call or JSON parse
fails, `validate_results` returns (without raising) the deterministic
heuristic report; its recommendation is "ACCEPT" iff every ledger entry
succeeded and "RETRY_WITH_CAUTION" otherwise, and its confidence score
is `int((successful_steps / total_steps) * 100)` evaluated in IEEE-754
double arithmetic — the truncation of approximately `100·s/t`, which
can fall one below the exact quotient for some ratios (it is 28, not
29, at 29 successes of 100 steps). -/
theorem c9_validator_fallback_amended :
    (∀ (m q : String) (plan : List PlanStep) (results : Ledger),
        validate_results (ValidateLLMOutcome.failure m) q plan results =
          validateFallback results) ∧
    (∀ results : Ledger,
        (lookupKey (validateFallback results) "recommendation" = some (JVal.str "ACCEPT") ↔
          successCount results = results.length) ∧
        (lookupKey (validateFallback results) "recommendation" =
            some (JVal.str "RETRY_WITH_CAUTION") ↔
          successCount results ≠ results.length) ∧
        lookupKey (validateFallback results) "confidence_score" =
          some (JVal.num (if results.length = 0 then ⟨0, 1⟩
            else ⟨intDivTimes100 (successCount results) results.length, 1⟩))) ∧
    intDivTimes100 29 100 = 28 := by
  refine ⟨?_, ?_, rfl⟩
  · intro m q plan results; rfl
  · intro results
    have hrec : lookupKey (validateFallback results) "recommendation" =
        some (JVal.str (if successCount results = results.length then "ACCEPT"
          else "RETRY_WITH_CAUTION")) := rfl
    refine ⟨?_, ?_, rfl⟩
    · rw [hrec]
      by_cases h : successCount results = results.length
      · rw [if_pos h, jstr_some_eq_iff]
        exact ⟨fun _ => h, fun _ => rfl⟩
      · rw [if_neg h, jstr_some_eq_iff]
        constructor
        · intro hh; exact absurd hh (by decide)
        · intro hh; exact (h hh).elim
    · rw [hrec]
      by_cases h : successCount results = results.length
      · rw [if_pos h, jstr_some_eq_iff]
        constructor
        · intro hh; exact absurd hh (by decide)
        · intro hh; exact (hh h).elim
      · rw [if_neg h, jstr_some_eq_iff]
        exact ⟨fun _ => h, fun _ => rfl⟩

/-! ## C10 -/

/-- C10: `MCPStyleAgent.run` is total for every stage behaviour (the
Lean image of "never raises"): an exception escaping any pipeline
stage — planning, execution, validation, synthesis — is converted into
the user-facing apology string, returned normally; when no stage
raises, the synthesizer's response is returned. -/
theorem c10_run_never_raises :
    (∀ (env : PipelineEnv) (q e : String),
        env.plannerStage q = Except.error e → runAgent env q = apologyMsg e) ∧
    (∀ (env : PipelineEnv) (q e : String) (plan : List PlanStep),
        env.plannerStage q = Except.ok plan →
        env.executeStage plan = Except.error e → runAgent env q = apologyMsg e) ∧
    (∀ (env : PipelineEnv) (q e : String) (plan : List PlanStep) (results : Ledger),
        env.plannerStage q = Except.ok plan →
        env.executeStage plan = Except.ok results →
        env.validateStage q plan results = Except.error e →
        runAgent env q = apologyMsg e) ∧
    (∀ (env : PipelineEnv) (q e : String) (plan : List PlanStep) (results : Ledger)
        (rep : JVal),
        env.plannerStage q = Except.ok plan →
        env.executeStage plan = Except.ok results →
        env.validateStage q plan results = Except.ok rep →
        env.synthStage q plan results = Except.error e →
        runAgent env q = apologyMsg e) ∧
    (∀ (env : PipelineEnv) (q : String) (plan : List PlanStep) (results : Ledger)
        (rep : JVal) (resp : String),
        env.plannerStage q = Except.ok plan →
        env.executeStage plan = Except.ok results →
        env.validateStage q plan results = Except.ok rep →
        env.synthStage q plan results = Except.ok resp →
        runAgent env q = resp) := by
  refine ⟨?_, ?_, ?_, ?_, ?_⟩
  · intro env q e h
    unfold runAgent
    rw [h]
  · intro env q e plan h1 h2
    unfold runAgent
    rw [h1]
    dsimp only
    rw [h2]
  · intro env q e plan results h1 h2 h3
    unfold runAgent
    rw [h1]
    dsimp only
    rw [h2]
    dsimp only
    rw [h3]
  · intro env q e plan results rep h1 h2 h3 h4
    unfold runAgent
    rw [h1]
    dsimp only
    rw [h2]
    dsimp only
    rw [h3]
    dsimp only
    rw [h4]
  · intro env q plan results rep resp h1 h2 h3 h4
    unfold runAgent
    rw [h1]
    dsimp only
    rw [h2]
    dsimp only
    rw [h3]
    dsimp only
    rw [h4]

/-- A concrete pipeline environment whose synthesis stage raises. -/
def envStub : PipelineEnv :=
  { plannerStage := fun q => Except.ok (fallbackPlan q)
    executeStage := fun p => Except.ok (execute_plan toolsOk p)
    validateStage := fun _ _ r => Except.ok (validateFallback r)
    synthStage := fun _ _ _ => Except.error "synthesis failed" }

/-- Witness for C10: in `envStub` the synthesis stage raises and `run`
returns the apology text. -/
theorem c10_run_never_raises_witness :
    envStub.synthStage "hi" (fallbackPlan "hi")
      (execute_plan toolsOk (fallbackPlan "hi")) = Except.error "synthesis failed" ∧
    runAgent envStub "hi" = apologyMsg "synthesis failed" :=
  ⟨rfl,
   c10_run_never_raises.2.2.2.1 envStub "hi" "synthesis failed" (fallbackPlan "hi")
     (execute_plan toolsOk (fallbackPlan "hi"))
     (validateFallback (execute_plan toolsOk (fallbackPlan "hi"))) rfl rfl rfl rfl⟩
